import Mathlib

/-!
Verification of the per-issue coding loop of the SWE-AF repository.

Shallow embedding of `src/execution/coding_loop.py` (the module named by the
claims) over the data model of `src/execution/schemas.py`.  External AI-agent
dispatch (`call_fn` wrapped in `_call_with_timeout`) is modelled as a script
assigning, to every iteration, the behaviour of each of the four agent calls
(coder, qa, code reviewer, qa synthesizer): either a structured result or a
raised error; a timeout raises `TimeoutError` in the source and is therefore an
error here as well.  The loop reads only the dict keys
`files_changed`/`summary` (coder), `passed`/`summary` (qa),
`approved`/`blocking`/`summary` (reviewer) and `action`/`summary`/`stuck`
(synthesizer), so the payload structures below carry exactly those fields.
`note_fn` is observability-only and is dropped.  The JSON checkpoint store
(`_save_iteration_state` / `_load_iteration_state`) is modelled by returning
the ordered trace of saved checkpoints next to the result, and by an optional
initial state passed to `run_coding_loop` (the value `_load_iteration_state`
would return on resume).
-/

/-- `IssueOutcome` from src/execution/schemas.py. -/
inductive IssueOutcome where
  | completed
  | completed_with_debt
  | failed_retryable
  | failed_unrecoverable
  | failed_needs_split
  | failed_escalated
  | skipped
deriving DecidableEq, Repr

/-- Coder-agent payload as read by the loop (`files_changed`, `summary`). -/
structure CoderResult where
  files_changed : List String
  summary : String := ""
deriving DecidableEq, Repr

/-- QA-agent payload as read by the loop (`passed`, `summary`). -/
structure QAResult where
  passed : Bool
  summary : String := ""
deriving DecidableEq, Repr

/-- Reviewer payload as read by the loop (`approved`, `blocking`, `summary`). -/
structure CodeReviewResult where
  approved : Bool
  blocking : Bool
  summary : String := ""
deriving DecidableEq, Repr

/-- Synthesizer payload as read by the loop (`action`, `summary`, `stuck`).
The loop reads `action` with `.get("action", "fix")` as a plain string. -/
structure QASynthesisResult where
  action : String
  summary : String := ""
  stuck : Bool := false
deriving DecidableEq, Repr

/-- One entry appended to `iteration_history` per iteration (coding_loop.py,
the dict literal appended after synthesis). -/
structure HistEntry where
  iteration : Nat
  action : String
  summary : String
  qa_passed : Bool
  review_approved : Bool
  review_blocking : Bool
deriving DecidableEq, Repr

/-- The fields of `IssueResult` (src/execution/schemas.py) that
`run_coding_loop` sets.  `error_context` (a Python traceback) and the
advisor-only fields are irrelevant to the claims and omitted. -/
structure IssueResult where
  issue_name : String
  outcome : IssueOutcome
  result_summary : String := ""
  error_message : String := ""
  attempts : Nat := 1
  files_changed : List String := []
  branch_name : String := ""
  iteration_history : List HistEntry := []
deriving DecidableEq, Repr

/-- The per-issue iteration checkpoint persisted by `_save_iteration_state`
and read back by `_load_iteration_state`: the literal dict
`{iteration, feedback, files_changed, iteration_history}`. -/
structure IterationState where
  iteration : Nat
  feedback : String
  files_changed : List String
  iteration_history : List HistEntry
deriving DecidableEq, Repr

/-- Behaviour of the four dispatch calls of one iteration: each call either
returns its structured payload or raises (errors and timeouts both surface as
raised exceptions past `_call_with_timeout`). -/
structure IterBehavior where
  coder : Except String CoderResult
  qa : Except String QAResult
  review : Except String CodeReviewResult
  synth : Except String QASynthesisResult

/-- The inputs of `run_coding_loop` relevant to the claims: issue identity,
branch, the `max_coding_iterations` bound from `ExecutionConfig`, and the
dispatch behaviour (`call_fn` with its timeout wrapper) as a script indexed by
iteration number. -/
structure LoopCtx where
  issue_name : String
  branch_name : String
  max_iterations : Nat
  script : Nat → IterBehavior

/-- The loop-carried state of `run_coding_loop`: `feedback`, accumulated
`files_changed`, `iteration_history`, plus the trace of checkpoints written so
far (the effect of `_save_iteration_state`). -/
structure LoopState where
  feedback : String
  files_changed : List String
  iteration_history : List HistEntry
  checkpoints : List IterationState

/-- File accumulation of coding_loop.py:
`for f in coder_result.get("files_changed", []): if f not in files_changed:
files_changed.append(f)`. -/
def addFiles (acc : List String) : List String → List String
  | [] => acc
  | f :: rest => addFiles (if f ∈ acc then acc else acc ++ [f]) rest

/-- QA substitution on failure (coding_loop.py, `isinstance(qa_result,
Exception)` branch): `{"passed": False, "summary": f"QA agent failed: {e}"}`;
a successful call is used as returned. -/
def effQA : Except String QAResult → QAResult
  | Except.ok q => q
  | Except.error e => { passed := false, summary := "QA agent failed: " ++ e }

/-- Review substitution on failure (coding_loop.py, `isinstance(review_result,
Exception)` branch): `{"approved": True, "blocking": False, "summary":
f"Review unavailable: {e}"}`; a successful call is used as returned. -/
def effReview : Except String CodeReviewResult → CodeReviewResult
  | Except.ok r => r
  | Except.error e =>
      { approved := true, blocking := false, summary := "Review unavailable: " ++ e }

/-- Deterministic synthesizer fallback (coding_loop.py, the `except` branch of
the synthesizer call): approve if QA passed and review approved and
non-blocking; block if review blocking; otherwise fix.  The fallback dict has
no `stuck` key, so `stuck` defaults to false. -/
def synthFallback (qa : QAResult) (review : CodeReviewResult) : QASynthesisResult :=
  if qa.passed && review.approved && !review.blocking then
    { action := "approve", summary := "Auto-approved (synthesizer unavailable)" }
  else if review.blocking then
    { action := "block",
      summary := "Blocked by review (synthesizer unavailable): " ++ review.summary }
  else
    { action := "fix",
      summary := "Auto-fix (synthesizer unavailable): QA=" ++ qa.summary
        ++ ", Review=" ++ review.summary }

/-- Effective synthesis decision: the synthesizer result when the call
succeeds, the deterministic fallback when it raises or times out. -/
def effSynth (s : Except String QASynthesisResult) (qa : QAResult)
    (review : CodeReviewResult) : QASynthesisResult :=
  match s with
  | Except.ok r => r
  | Except.error _ => synthFallback qa review

/-- Effective synthesis decision of one iteration's dispatch behaviour. -/
def stepSynth (b : IterBehavior) : QASynthesisResult :=
  effSynth b.synth (effQA b.qa) (effReview b.review)

/-- The `iteration_history` entry appended by one iteration (coding_loop.py,
the dict appended after the synthesizer stage). -/
def stepEntry (b : IterBehavior) (iteration : Nat) : HistEntry :=
  { iteration := iteration
    action := (stepSynth b).action
    summary := (stepSynth b).summary
    qa_passed := (effQA b.qa).passed
    review_approved := (effReview b.review).approved
    review_blocking := (effReview b.review).blocking }

/-- The checkpoint written by `_save_iteration_state` for one iteration:
`{iteration, feedback := summary, files_changed, iteration_history}`. -/
def stepCkpt (b : IterBehavior) (c : CoderResult) (iteration : Nat)
    (st : LoopState) : IterationState :=
  { iteration := iteration
    feedback := (stepSynth b).summary
    files_changed := addFiles st.files_changed c.files_changed
    iteration_history := st.iteration_history ++ [stepEntry b iteration] }

/-- Loop state carried into the next iteration on a `fix` decision: feedback
becomes the synthesizer summary, files and history accumulate, the checkpoint
trace records this iteration's save. -/
def stepContinue (b : IterBehavior) (c : CoderResult) (iteration : Nat)
    (st : LoopState) : LoopState :=
  { feedback := (stepSynth b).summary
    files_changed := addFiles st.files_changed c.files_changed
    iteration_history := st.iteration_history ++ [stepEntry b iteration]
    checkpoints := st.checkpoints ++ [stepCkpt b c iteration st] }

/-- The iteration loop of `run_coding_loop` (src/execution/coding_loop.py,
`for iteration in range(start_iteration, max_iterations + 1)`), with the fuel
argument counting the iterations left in the budget.  Each round: coder (fatal
on failure), QA and reviewer in parallel (failures substituted by safe
defaults), synthesizer (fallback on failure), history append, checkpoint save,
then branch on the decision: approve → completed; block → failed_unrecoverable;
otherwise fix — terminal failed_unrecoverable if the synthesizer flagged
`stuck`, else continue.  Budget exhaustion → failed_unrecoverable. -/
def runFrom (ctx : LoopCtx) : Nat → Nat → LoopState → IssueResult × List IterationState
  | 0, _, st =>
      ({ issue_name := ctx.issue_name
         outcome := IssueOutcome.failed_unrecoverable
         error_message :=
           s!"Coding loop exhausted after {ctx.max_iterations} iterations without approval"
         attempts := ctx.max_iterations
         files_changed := st.files_changed
         branch_name := ctx.branch_name
         iteration_history := st.iteration_history }, st.checkpoints)
  | fuel + 1, iteration, st =>
      match (ctx.script iteration).coder with
      | Except.error e =>
          ({ issue_name := ctx.issue_name
             outcome := IssueOutcome.failed_unrecoverable
             error_message := s!"Coder agent failed on iteration {iteration}: {e}"
             attempts := iteration
             files_changed := st.files_changed
             branch_name := ctx.branch_name
             iteration_history := st.iteration_history }, st.checkpoints)
      | Except.ok coder_result =>
          let s := stepSynth (ctx.script iteration)
          let files_changed := addFiles st.files_changed coder_result.files_changed
          let iteration_history :=
            st.iteration_history ++ [stepEntry (ctx.script iteration) iteration]
          let checkpoints :=
            st.checkpoints ++ [stepCkpt (ctx.script iteration) coder_result iteration st]
          if s.action = "approve" then
            ({ issue_name := ctx.issue_name
               outcome := IssueOutcome.completed
               result_summary := s.summary
               attempts := iteration
               files_changed := files_changed
               branch_name := ctx.branch_name
               iteration_history := iteration_history }, checkpoints)
          else if s.action = "block" then
            ({ issue_name := ctx.issue_name
               outcome := IssueOutcome.failed_unrecoverable
               error_message := s.summary
               attempts := iteration
               files_changed := files_changed
               branch_name := ctx.branch_name
               iteration_history := iteration_history }, checkpoints)
          else if s.stuck then
            ({ issue_name := ctx.issue_name
               outcome := IssueOutcome.failed_unrecoverable
               error_message := "Stuck loop detected: " ++ s.summary
               attempts := iteration
               files_changed := files_changed
               branch_name := ctx.branch_name
               iteration_history := iteration_history }, checkpoints)
          else
            runFrom ctx fuel (iteration + 1)
              (stepContinue (ctx.script iteration) coder_result iteration st)

/-- `run_coding_loop` of src/execution/coding_loop.py.  `existing_state` is
what `_load_iteration_state` returned: with a checkpoint, the loop resumes at
`existing_state.iteration + 1` reusing feedback, files and history; without
one it starts at iteration 1 with empty state.  The second component is the
ordered trace of checkpoints written during this run. -/
def run_coding_loop (ctx : LoopCtx) (existing_state : Option IterationState) :
    IssueResult × List IterationState :=
  match existing_state with
  | none =>
      runFrom ctx ctx.max_iterations 1
        { feedback := "", files_changed := [], iteration_history := [], checkpoints := [] }
  | some s =>
      runFrom ctx (ctx.max_iterations + 1 - (s.iteration + 1)) (s.iteration + 1)
        { feedback := s.feedback
          files_changed := s.files_changed
          iteration_history := s.iteration_history
          checkpoints := [] }

/-!
The coding loop the specification's stuck-loop and exhaustion sentences
describe is `swe_af/execution/coding_loop.py` — the module imported by the
repository's own `tests/test_coding_loop.py`
(`from swe_af.execution.coding_loop import _detect_stuck_loop,
run_coding_loop`).  That module is not present in the source tree given here;
only its tests are, and `src/execution/coding_loop.py` above is an earlier
sibling that lacks the window-based stuck detector and the
`completed_with_debt` / `failed_unrecoverable` split entirely (it returns
`failed_unrecoverable` unconditionally on stuck and on exhaustion, and writes
no per-iteration artifact files, while the spec's §6 and the tests require
them).  The missing decision logic is therefore modelled below from the spec,
reusing the shared stage definitions above, and the claims about it are
settled against this model.
-/

/-- Modelled from the spec: `_detect_stuck_loop` of
swe_af/execution/coding_loop.py (absent from the source tree; imported and
unit-tested by tests/test_coding_loop.py).  "examine the most recent *window*
(default 3) entries of `iteration_history`.  If all of them have action `fix`
and none carries a blocking review and none is an `approve`, declare the loop
stuck" — fewer than `window` entries never trigger. -/
def _detect_stuck_loop (history : List HistEntry) (window : Nat) : Bool :=
  if history.length < window then false
  else
    (history.drop (history.length - window)).all
      (fun e => e.action == "fix" && !e.review_blocking)

/-- Modelled from the spec: the terminal-outcome split applied by
swe_af/execution/coding_loop.py (absent from the source tree) on a stuck
signal and on exhaustion — "`completed_with_debt` if at least one file has
been changed across all iterations and the latest review was non-blocking;
otherwise `failed_unrecoverable`". -/
def debtOutcome (files : List String) (reviewBlocking : Bool) : IssueOutcome :=
  if files ≠ [] ∧ reviewBlocking = false then IssueOutcome.completed_with_debt
  else IssueOutcome.failed_unrecoverable

/-- Modelled from the spec: the "final review" consulted by the exhaustion
split of swe_af/execution/coding_loop.py (absent from the source tree) — the
blocking flag recorded in the last `iteration_history` entry; with no entry
there is no non-blocking final review, so the split falls to its failure
side. -/
def lastReviewBlocking (history : List HistEntry) : Bool :=
  match history.getLast? with
  | some e => e.review_blocking
  | none => true

namespace SpecModel

/-- Modelled from the spec: the iteration loop of
swe_af/execution/coding_loop.py (absent from the source tree; exercised by
tests/test_coding_loop.py).  Identical staging to `runFrom` above — coder
fatal on failure, QA/review safe defaults, synthesizer fallback, history
append, checkpoint save, approve/block terminals — but on the `fix` path the
synthesizer's `stuck` flag and the independent window detector
(`_detect_stuck_loop`, default window 3) are both terminal triggers applying
the `debtOutcome` split, and exhaustion applies the same split against the
final review instead of failing unconditionally. -/
def runFrom (ctx : LoopCtx) : Nat → Nat → LoopState → IssueResult × List IterationState
  | 0, _, st =>
      ({ issue_name := ctx.issue_name
         outcome := debtOutcome st.files_changed (lastReviewBlocking st.iteration_history)
         error_message :=
           s!"Coding loop exhausted after {ctx.max_iterations} iterations without approval"
         attempts := ctx.max_iterations
         files_changed := st.files_changed
         branch_name := ctx.branch_name
         iteration_history := st.iteration_history }, st.checkpoints)
  | fuel + 1, iteration, st =>
      match (ctx.script iteration).coder with
      | Except.error e =>
          ({ issue_name := ctx.issue_name
             outcome := IssueOutcome.failed_unrecoverable
             error_message := s!"Coder agent failed on iteration {iteration}: {e}"
             attempts := iteration
             files_changed := st.files_changed
             branch_name := ctx.branch_name
             iteration_history := st.iteration_history }, st.checkpoints)
      | Except.ok coder_result =>
          let s := stepSynth (ctx.script iteration)
          let files_changed := addFiles st.files_changed coder_result.files_changed
          let iteration_history :=
            st.iteration_history ++ [stepEntry (ctx.script iteration) iteration]
          let checkpoints :=
            st.checkpoints ++ [stepCkpt (ctx.script iteration) coder_result iteration st]
          if s.action = "approve" then
            ({ issue_name := ctx.issue_name
               outcome := IssueOutcome.completed
               result_summary := s.summary
               attempts := iteration
               files_changed := files_changed
               branch_name := ctx.branch_name
               iteration_history := iteration_history }, checkpoints)
          else if s.action = "block" then
            ({ issue_name := ctx.issue_name
               outcome := IssueOutcome.failed_unrecoverable
               error_message := s.summary
               attempts := iteration
               files_changed := files_changed
               branch_name := ctx.branch_name
               iteration_history := iteration_history }, checkpoints)
          else if s.stuck then
            ({ issue_name := ctx.issue_name
               outcome := debtOutcome files_changed (effReview (ctx.script iteration).review).blocking
               error_message := "Stuck loop detected: " ++ s.summary
               attempts := iteration
               files_changed := files_changed
               branch_name := ctx.branch_name
               iteration_history := iteration_history }, checkpoints)
          else if _detect_stuck_loop iteration_history 3 then
            ({ issue_name := ctx.issue_name
               outcome := debtOutcome files_changed (effReview (ctx.script iteration).review).blocking
               error_message := "Stuck loop detected: " ++ s.summary
               attempts := iteration
               files_changed := files_changed
               branch_name := ctx.branch_name
               iteration_history := iteration_history }, checkpoints)
          else
            runFrom ctx fuel (iteration + 1)
              (stepContinue (ctx.script iteration) coder_result iteration st)

/-- Modelled from the spec: `run_coding_loop` of
swe_af/execution/coding_loop.py (absent from the source tree) — resume
semantics identical to the sibling above: start at the checkpointed iteration
plus one (default 1), reusing checkpointed feedback, files and history. -/
def run_coding_loop (ctx : LoopCtx) (existing_state : Option IterationState) :
    IssueResult × List IterationState :=
  match existing_state with
  | none =>
      runFrom ctx ctx.max_iterations 1
        { feedback := "", files_changed := [], iteration_history := [], checkpoints := [] }
  | some s =>
      runFrom ctx (ctx.max_iterations + 1 - (s.iteration + 1)) (s.iteration + 1)
        { feedback := s.feedback
          files_changed := s.files_changed
          iteration_history := s.iteration_history
          checkpoints := [] }

end SpecModel

/-- Deduplicating union of a sequence of reported `files_changed` lists,
folding the loop's `addFiles` accumulation over them in order. -/
def dedupUnion (init : List String) : List (List String) → List String
  | [] => init
  | r :: rs => dedupUnion (addFiles init r) rs

/-- The `files_changed` lists reported by the coder over `n` consecutive
iterations of the script starting at `iteration` (stopping at a coder
failure, where the loop stops accumulating). -/
def collectReports (ctx : LoopCtx) : Nat → Nat → List (List String)
  | 0, _ => []
  | n + 1, iteration =>
      match (ctx.script iteration).coder with
      | Except.error _ => []
      | Except.ok c => c.files_changed :: collectReports ctx n (iteration + 1)

/-- The `files_changed` list the loop starts from: empty on a fresh start,
the checkpointed list on resume. -/
def resumeFiles : Option IterationState → List String
  | none => []
  | some s => s.files_changed

/-- The iteration the loop starts at: 1 on a fresh start, the checkpointed
iteration plus one on resume. -/
def startIteration : Option IterationState → Nat
  | none => 1
  | some s => s.iteration + 1

/-! Concrete fixtures for the witness and counterexample theorems. -/

/-- Fresh loop state: no feedback, files, history or checkpoints. -/
def emptyLoopState : LoopState :=
  { feedback := "", files_changed := [], iteration_history := [], checkpoints := [] }

def w1coder : CoderResult := { files_changed := ["m.py"], summary := "done" }

def w1beh : IterBehavior :=
  { coder := Except.ok w1coder
    qa := Except.ok { passed := true, summary := "ok" }
    review := Except.ok { approved := false, blocking := false, summary := "minor" }
    synth := Except.ok { action := "fix", summary := "still failing", stuck := true } }

def w1ctx : LoopCtx :=
  { issue_name := "ISSUE-1", branch_name := "feat/one", max_iterations := 5
    script := fun _ => w1beh }

def w2coder : CoderResult := { files_changed := ["x.py"], summary := "patched" }

def w2beh : IterBehavior :=
  { coder := Except.ok w2coder
    qa := Except.ok { passed := true, summary := "ok" }
    review := Except.ok { approved := false, blocking := false, summary := "polish" }
    synth := Except.ok { action := "fix", summary := "keep polishing", stuck := false } }

def w2ctx : LoopCtx :=
  { issue_name := "ISSUE-2", branch_name := "feat/two", max_iterations := 10
    script := fun _ => w2beh }

def w2st1 : LoopState := stepContinue w2beh w2coder 1 emptyLoopState

def w2st2 : LoopState := stepContinue w2beh w2coder 2 w2st1

def w3coder : CoderResult := { files_changed := ["m.py"], summary := "attempt" }

def w3beh : IterBehavior :=
  { coder := Except.ok w3coder
    qa := Except.ok { passed := false, summary := "failing" }
    review := Except.ok { approved := false, blocking := false, summary := "needs work" }
    synth := Except.ok { action := "fix", summary := "keep going", stuck := false } }

def w3ctx : LoopCtx :=
  { issue_name := "ISSUE-3", branch_name := "feat/three", max_iterations := 2
    script := fun _ => w3beh }

def w3st1 : LoopState := stepContinue w3beh w3coder 1 emptyLoopState

def w3st2 : LoopState := stepContinue w3beh w3coder 2 w3st1

def w3zcoder : CoderResult := { files_changed := [], summary := "no changes" }

def w3zbeh : IterBehavior :=
  { coder := Except.ok w3zcoder
    qa := Except.ok { passed := false, summary := "nothing to test" }
    review := Except.ok { approved := false, blocking := false, summary := "nothing to review" }
    synth := Except.ok { action := "fix", summary := "try again", stuck := false } }

def w3zctx : LoopCtx :=
  { issue_name := "ISSUE-3Z", branch_name := "feat/threez", max_iterations := 2
    script := fun _ => w3zbeh }

def w3zst1 : LoopState := stepContinue w3zbeh w3zcoder 1 emptyLoopState

def w3zst2 : LoopState := stepContinue w3zbeh w3zcoder 2 w3zst1

def w5coder : CoderResult := { files_changed := ["app.py"], summary := "implemented" }

def w5beh : IterBehavior :=
  { coder := Except.ok w5coder
    qa := Except.error "QA timed out"
    review := Except.ok { approved := false, blocking := false, summary := "looks fine" }
    synth := Except.ok { action := "fix", summary := "address QA gap", stuck := false } }

def w5ctx : LoopCtx :=
  { issue_name := "ISSUE-5", branch_name := "feat/five", max_iterations := 1
    script := fun _ => w5beh }

def w6beh : IterBehavior :=
  { coder := Except.ok { files_changed := ["feature.py"], summary := "implemented" }
    qa := Except.ok { passed := true, summary := "all tests pass" }
    review := Except.ok { approved := true, blocking := false, summary := "clean" }
    synth := Except.error "synthesizer down" }

def w6ctx : LoopCtx :=
  { issue_name := "ISSUE-6", branch_name := "feat/six", max_iterations := 1
    script := fun _ => w6beh }

def cexbeh : IterBehavior :=
  { coder := Except.ok { files_changed := ["a.py"], summary := "attempt" }
    qa := Except.ok { passed := false, summary := "tests fail" }
    review := Except.ok { approved := false, blocking := true, summary := "security issue" }
    synth := Except.ok { action := "fix", summary := "needs more", stuck := false } }

def cexctx : LoopCtx :=
  { issue_name := "ISSUE-CEX", branch_name := "feat/cex", max_iterations := 2
    script := fun _ => cexbeh }

def w7beh : IterBehavior :=
  { coder := Except.ok { files_changed := ["a.py"], summary := "attempt" }
    qa := Except.ok { passed := false, summary := "tests fail" }
    review := Except.ok { approved := false, blocking := true, summary := "security issue" }
    synth := Except.ok { action := "block", summary := "critical defect", stuck := false } }

def w7ctx : LoopCtx :=
  { issue_name := "ISSUE-7", branch_name := "feat/seven", max_iterations := 3
    script := fun _ => w7beh }

def w8beh : IterBehavior :=
  { coder := Except.error "Model API timeout"
    qa := Except.ok { passed := true, summary := "ok" }
    review := Except.ok { approved := true, blocking := false, summary := "ok" }
    synth := Except.ok { action := "approve", summary := "ok", stuck := false } }

def w8ctx : LoopCtx :=
  { issue_name := "ISSUE-8", branch_name := "feat/eight", max_iterations := 3
    script := fun _ => w8beh }

def w9coder : CoderResult := { files_changed := ["b.py"], summary := "resumed work" }

def w9beh : IterBehavior :=
  { coder := Except.ok w9coder
    qa := Except.ok { passed := true, summary := "ok" }
    review := Except.ok { approved := true, blocking := false, summary := "good" }
    synth := Except.ok { action := "approve", summary := "done", stuck := false } }

def w9ctx : LoopCtx :=
  { issue_name := "ISSUE-9", branch_name := "feat/nine", max_iterations := 3
    script := fun _ => w9beh }

def w9cst : IterationState :=
  { iteration := 1
    feedback := "earlier feedback"
    files_changed := ["a.py"]
    iteration_history :=
      [{ iteration := 1, action := "fix", summary := "earlier feedback"
         qa_passed := false, review_approved := false, review_blocking := false }] }

def w10beh : IterBehavior :=
  { coder := Except.ok { files_changed := ["b.py", "c.py"], summary := "more" }
    qa := Except.ok { passed := true, summary := "ok" }
    review := Except.ok { approved := true, blocking := false, summary := "good" }
    synth := Except.ok { action := "approve", summary := "done", stuck := false } }

def w10ctx : LoopCtx :=
  { issue_name := "ISSUE-10", branch_name := "feat/ten", max_iterations := 2
    script := fun _ => w10beh }

def w10cst : IterationState :=
  { iteration := 1, feedback := "f", files_changed := ["a.py"], iteration_history := [] }

/-! Helper lemmas shared by the claim theorems. -/

theorem mem_drop_append {α : Type} (l : List α) (x : α) :
    ∀ k, k ≤ l.length → x ∈ (l ++ [x]).drop k := by
  induction l with
  | nil =>
      intro k hk
      have hk0 : k = 0 := Nat.le_zero.mp hk
      simp [hk0]
  | cons a t ih =>
      intro k hk
      cases k with
      | zero => simp
      | succ k =>
          simp only [List.cons_append, List.drop_succ_cons]
          exact ih k (by simpa using hk)

theorem detect_append_last (hs : List HistEntry) (en : HistEntry)
    (h : _detect_stuck_loop (hs ++ [en]) 3 = true) :
    en.action = "fix" ∧ en.review_blocking = false := by
  unfold _detect_stuck_loop at h
  split at h
  · exact absurd h (by simp)
  · rename_i hlen
    have hlen3 : 3 ≤ (hs ++ [en]).length := Nat.le_of_not_lt hlen
    have hk : (hs ++ [en]).length - 3 ≤ hs.length := by
      simp only [List.length_append, List.length_singleton] at hlen3 ⊢
      omega
    have hmem : en ∈ (hs ++ [en]).drop ((hs ++ [en]).length - 3) :=
      mem_drop_append hs en _ hk
    have := List.all_eq_true.mp h en hmem
    simp only [Bool.and_eq_true, beq_iff_eq, Bool.not_eq_true'] at this
    exact this

theorem mem_addFiles (a : String) :
    ∀ (ns acc : List String), a ∈ addFiles acc ns ↔ a ∈ acc ∨ a ∈ ns := by
  intro ns
  induction ns with
  | nil => intro acc; simp [addFiles]
  | cons f t ih =>
      intro acc
      simp only [addFiles]
      rw [ih]
      by_cases hf : f ∈ acc
      · simp only [hf, if_true, List.mem_cons]
        constructor
        · rintro (h | h)
          · exact Or.inl h
          · exact Or.inr (Or.inr h)
        · rintro (h | h | h)
          · exact Or.inl h
          · exact Or.inl (h ▸ hf)
          · exact Or.inr h
      · simp only [hf, if_false, List.mem_append, List.mem_singleton, List.mem_cons]
        tauto

theorem nodup_addFiles :
    ∀ (ns acc : List String), acc.Nodup → (addFiles acc ns).Nodup := by
  intro ns
  induction ns with
  | nil => intro acc h; simpa [addFiles] using h
  | cons f t ih =>
      intro acc h
      simp only [addFiles]
      apply ih
      by_cases hf : f ∈ acc
      · simpa [hf] using h
      · simp [hf, List.nodup_append, h, List.disjoint_singleton]

theorem runFrom_snd_extends (ctx : LoopCtx) :
    ∀ fuel iteration st,
      ∃ rest, (runFrom ctx fuel iteration st).snd = st.checkpoints ++ rest := by
  intro fuel
  induction fuel with
  | zero => intro it st; exact ⟨[], by simp [runFrom]⟩
  | succ n ih =>
      intro it st
      cases hc : (ctx.script it).coder with
      | error e => exact ⟨[], by simp [runFrom, hc]⟩
      | ok c =>
          simp only [runFrom, hc]
          split_ifs with h1 h2 h3
          · exact ⟨[stepCkpt (ctx.script it) c it st], rfl⟩
          · exact ⟨[stepCkpt (ctx.script it) c it st], rfl⟩
          · exact ⟨[stepCkpt (ctx.script it) c it st], rfl⟩
          · obtain ⟨r, hr⟩ := ih (it + 1) (stepContinue (ctx.script it) c it st)
            refine ⟨stepCkpt (ctx.script it) c it st :: r, ?_⟩
            rw [hr]
            simp [stepContinue]

theorem runFrom_wf (ctx : LoopCtx) :
    ∀ fuel iteration st, (fuel + iteration ≤ ctx.max_iterations + 1 ∨ fuel = 0) →
      (runFrom ctx fuel iteration st).fst.issue_name = ctx.issue_name
      ∧ (runFrom ctx fuel iteration st).fst.branch_name = ctx.branch_name
      ∧ ((runFrom ctx fuel iteration st).fst.outcome = IssueOutcome.completed
         ∨ (runFrom ctx fuel iteration st).fst.outcome = IssueOutcome.failed_unrecoverable)
      ∧ (runFrom ctx fuel iteration st).fst.attempts ≤ ctx.max_iterations := by
  intro fuel
  induction fuel with
  | zero => intro it st hle; exact ⟨rfl, rfl, Or.inr rfl, le_refl _⟩
  | succ n ih =>
      intro it st hle
      have hit : it ≤ ctx.max_iterations := by omega
      cases hc : (ctx.script it).coder with
      | error e =>
          simp [runFrom, hc, hit]
      | ok c =>
          simp only [runFrom, hc]
          split_ifs with h1 h2 h3
          · simp [hit]
          · simp [hit]
          · simp [hit]
          · exact ih (it + 1) (stepContinue (ctx.script it) c it st) (by omega)

theorem runFrom_files_mono (ctx : LoopCtx) :
    ∀ fuel iteration st x, x ∈ st.files_changed →
      x ∈ (runFrom ctx fuel iteration st).fst.files_changed := by
  intro fuel
  induction fuel with
  | zero => intro it st x hx; simpa [runFrom] using hx
  | succ n ih =>
      intro it st x hx
      cases hc : (ctx.script it).coder with
      | error e => simpa [runFrom, hc] using hx
      | ok c =>
          have hadd : x ∈ addFiles st.files_changed c.files_changed :=
            (mem_addFiles x c.files_changed st.files_changed).mpr (Or.inl hx)
          simp only [runFrom, hc]
          split_ifs with h1 h2 h3
          · simpa using hadd
          · simpa using hadd
          · simpa using hadd
          · exact ih (it + 1) (stepContinue (ctx.script it) c it st) x
              (by simpa [stepContinue] using hadd)

theorem runFrom_files_union (ctx : LoopCtx) :
    ∀ fuel iteration st, ∃ n, n ≤ fuel ∧
      (runFrom ctx fuel iteration st).fst.files_changed
        = dedupUnion st.files_changed (collectReports ctx n iteration) := by
  intro fuel
  induction fuel with
  | zero =>
      intro it st
      exact ⟨0, le_refl 0, by simp [runFrom, dedupUnion, collectReports]⟩
  | succ n ih =>
      intro it st
      cases hc : (ctx.script it).coder with
      | error e =>
          exact ⟨0, Nat.zero_le _, by simp [runFrom, hc, dedupUnion, collectReports]⟩
      | ok c =>
          have hone : dedupUnion st.files_changed (collectReports ctx 1 it)
              = addFiles st.files_changed c.files_changed := by
            simp [collectReports, hc, dedupUnion]
          simp only [runFrom, hc]
          split_ifs with h1 h2 h3
          · exact ⟨1, by omega, by simpa using hone.symm⟩
          · exact ⟨1, by omega, by simpa using hone.symm⟩
          · exact ⟨1, by omega, by simpa using hone.symm⟩
          · obtain ⟨m, hm, hf⟩ := ih (it + 1) (stepContinue (ctx.script it) c it st)
            refine ⟨m + 1, by omega, ?_⟩
            rw [hf]
            simp [collectReports, hc, dedupUnion, stepContinue]

theorem runFrom_ckpt_head (ctx : LoopCtx) (st : LoopState) (fuel iteration : Nat)
    (c : CoderResult) (hc : (ctx.script iteration).coder = Except.ok c) :
    ∃ rest, (runFrom ctx (fuel + 1) iteration st).snd
      = st.checkpoints ++ stepCkpt (ctx.script iteration) c iteration st :: rest := by
  simp only [runFrom, hc]
  split_ifs with h1 h2 h3
  · exact ⟨[], rfl⟩
  · exact ⟨[], rfl⟩
  · exact ⟨[], rfl⟩
  · obtain ⟨r, hr⟩ :=
      runFrom_snd_extends ctx fuel (iteration + 1) (stepContinue (ctx.script iteration) c iteration st)
    refine ⟨r, ?_⟩
    rw [hr]
    simp [stepContinue]

/-! The claim theorems. -/

/-- C1: for every run of the (spec-modelled) coding loop in which the
synthesizer returns a decision with `stuck = true` and an action that is
neither approve nor block, the loop terminates at that iteration — outcome
`completed_with_debt` if at least one file has been changed across all
iterations and the latest review was non-blocking, `failed_unrecoverable`
otherwise. -/
theorem stuck_flag_outcome_split (ctx : LoopCtx) (st : LoopState) (fuel iteration : Nat)
    (c : CoderResult) (s : QASynthesisResult)
    (hc : (ctx.script iteration).coder = Except.ok c)
    (hs : (ctx.script iteration).synth = Except.ok s)
    (hstuck : s.stuck = true)
    (ha : s.action ≠ "approve") (hb : s.action ≠ "block") :
    (SpecModel.runFrom ctx (fuel + 1) iteration st).fst.outcome
      = (if addFiles st.files_changed c.files_changed ≠ []
           ∧ (effReview (ctx.script iteration).review).blocking = false
         then IssueOutcome.completed_with_debt else IssueOutcome.failed_unrecoverable)
    ∧ (SpecModel.runFrom ctx (fuel + 1) iteration st).fst.attempts = iteration
    ∧ (SpecModel.runFrom ctx (fuel + 1) iteration st).fst.iteration_history
        = st.iteration_history ++ [stepEntry (ctx.script iteration) iteration] := by
  have hss : stepSynth (ctx.script iteration) = s := by
    simp [stepSynth, effSynth, hs]
  have hrun : SpecModel.runFrom ctx (fuel + 1) iteration st
      = ({ issue_name := ctx.issue_name
           outcome := debtOutcome (addFiles st.files_changed c.files_changed)
             (effReview (ctx.script iteration).review).blocking
           error_message := "Stuck loop detected: " ++ s.summary
           attempts := iteration
           files_changed := addFiles st.files_changed c.files_changed
           branch_name := ctx.branch_name
           iteration_history :=
             st.iteration_history ++ [stepEntry (ctx.script iteration) iteration] },
         st.checkpoints ++ [stepCkpt (ctx.script iteration) c iteration st]) := by
    simp only [SpecModel.runFrom, hc, hss]
    rw [if_neg ha, if_neg hb, if_pos hstuck]
  rw [hrun]
  exact ⟨rfl, rfl, rfl⟩

/-- Witness for C1: a synthesizer `stuck = true` with a fix action on
iteration 1, with a file changed and a non-blocking review, terminates the
run with `completed_with_debt` after one attempt. -/
theorem stuck_flag_outcome_split_witness :
    (w1ctx.script 1).synth
      = Except.ok { action := "fix", summary := "still failing", stuck := true }
    ∧ (SpecModel.run_coding_loop w1ctx none).fst.outcome = IssueOutcome.completed_with_debt
    ∧ (SpecModel.run_coding_loop w1ctx none).fst.attempts = 1 := by
  have h := stuck_flag_outcome_split w1ctx emptyLoopState 4 1 w1coder
      { action := "fix", summary := "still failing", stuck := true }
      rfl rfl rfl (by decide) (by decide)
  have e : SpecModel.run_coding_loop w1ctx none
      = SpecModel.runFrom w1ctx (4 + 1) 1 emptyLoopState := rfl
  refine ⟨rfl, ?_, ?_⟩
  · rw [e, h.1]; decide
  · rw [e]; exact h.2.1

/-- C2: for every run of the (spec-modelled) coding loop, when after an
iteration the most recent 3 entries of `iteration_history` all have action
`fix` with non-blocking reviews, the loop declares itself stuck at that
iteration — however much budget remains — and terminates with
`completed_with_debt` when files have been changed (the window already forces
the latest review non-blocking), `failed_unrecoverable` otherwise. -/
theorem stuck_window_outcome_split (ctx : LoopCtx) (st : LoopState) (fuel iteration : Nat)
    (c : CoderResult)
    (hc : (ctx.script iteration).coder = Except.ok c)
    (hdet : _detect_stuck_loop
        (st.iteration_history ++ [stepEntry (ctx.script iteration) iteration]) 3 = true) :
    (SpecModel.runFrom ctx (fuel + 1) iteration st).fst.outcome
      = (if addFiles st.files_changed c.files_changed ≠ []
         then IssueOutcome.completed_with_debt else IssueOutcome.failed_unrecoverable)
    ∧ (SpecModel.runFrom ctx (fuel + 1) iteration st).fst.attempts = iteration
    ∧ (SpecModel.runFrom ctx (fuel + 1) iteration st).fst.iteration_history
        = st.iteration_history ++ [stepEntry (ctx.script iteration) iteration] := by
  obtain ⟨hfix, hnb⟩ :=
    detect_append_last st.iteration_history (stepEntry (ctx.script iteration) iteration) hdet
  simp only [stepEntry] at hfix hnb
  have ha : (stepSynth (ctx.script iteration)).action ≠ "approve" := by
    rw [hfix]; decide
  have hb : (stepSynth (ctx.script iteration)).action ≠ "block" := by
    rw [hfix]; decide
  have hrun : SpecModel.runFrom ctx (fuel + 1) iteration st
      = ({ issue_name := ctx.issue_name
           outcome := debtOutcome (addFiles st.files_changed c.files_changed)
             (effReview (ctx.script iteration).review).blocking
           error_message :=
             "Stuck loop detected: " ++ (stepSynth (ctx.script iteration)).summary
           attempts := iteration
           files_changed := addFiles st.files_changed c.files_changed
           branch_name := ctx.branch_name
           iteration_history :=
             st.iteration_history ++ [stepEntry (ctx.script iteration) iteration] },
         st.checkpoints ++ [stepCkpt (ctx.script iteration) c iteration st]) := by
    simp only [SpecModel.runFrom, hc]
    rw [if_neg ha, if_neg hb]
    by_cases hstk : (stepSynth (ctx.script iteration)).stuck
    · rw [if_pos hstk]
    · rw [if_neg hstk, if_pos hdet]
  rw [hrun]
  refine ⟨?_, rfl, rfl⟩
  rw [show ({ issue_name := ctx.issue_name
              outcome := debtOutcome (addFiles st.files_changed c.files_changed)
                (effReview (ctx.script iteration).review).blocking
              error_message :=
                "Stuck loop detected: " ++ (stepSynth (ctx.script iteration)).summary
              attempts := iteration
              files_changed := addFiles st.files_changed c.files_changed
              branch_name := ctx.branch_name
              iteration_history :=
                st.iteration_history ++ [stepEntry (ctx.script iteration) iteration] }
            : IssueResult).outcome
        = debtOutcome (addFiles st.files_changed c.files_changed)
            (effReview (ctx.script iteration).review).blocking from rfl, hnb]
  simp [debtOutcome]

/-- Witness for C2: three consecutive non-blocking fix decisions (window 3)
with a file changed make the full run return `completed_with_debt` with
attempts 3, although ten iterations were configured. -/
theorem stuck_window_outcome_split_witness :
    _detect_stuck_loop (w2st2.iteration_history ++ [stepEntry w2beh 3]) 3 = true
    ∧ (SpecModel.run_coding_loop w2ctx none).fst.outcome = IssueOutcome.completed_with_debt
    ∧ (SpecModel.run_coding_loop w2ctx none).fst.attempts = 3
    ∧ w2ctx.max_iterations = 10 := by
  have h := stuck_window_outcome_split w2ctx w2st2 7 3 w2coder rfl (by decide)
  have e : SpecModel.run_coding_loop w2ctx none
      = SpecModel.runFrom w2ctx (7 + 1) 3 w2st2 := rfl
  refine ⟨by decide, ?_, ?_, rfl⟩
  · rw [e, h.1]; decide
  · rw [e]; exact h.2.1

/-- C3: a run of the (spec-modelled) coding loop that reaches the iteration
budget without approval and without a stuck trigger returns
`completed_with_debt` if at least one file was changed and the final review
was non-blocking, and `failed_unrecoverable` otherwise — in particular
whenever zero files were ever changed. -/
theorem exhaustion_outcome_split (ctx : LoopCtx) (iteration : Nat) (st : LoopState) :
    (SpecModel.runFrom ctx 0 iteration st).fst.outcome
      = (if st.files_changed ≠ [] ∧ lastReviewBlocking st.iteration_history = false
         then IssueOutcome.completed_with_debt else IssueOutcome.failed_unrecoverable)
    ∧ (SpecModel.runFrom ctx 0 iteration st).fst.attempts = ctx.max_iterations
    ∧ (SpecModel.runFrom ctx 0 iteration st).fst.files_changed = st.files_changed
    ∧ (st.files_changed = [] →
        (SpecModel.runFrom ctx 0 iteration st).fst.outcome
          = IssueOutcome.failed_unrecoverable) := by
  refine ⟨rfl, rfl, rfl, ?_⟩
  intro h
  show debtOutcome st.files_changed (lastReviewBlocking st.iteration_history) = _
  simp [debtOutcome, h]

/-- Witness for C3: a full two-iteration budget exhausted with a file changed
and non-blocking reviews yields `completed_with_debt`, while the same
exhaustion with zero files ever changed yields `failed_unrecoverable` despite
every review being non-blocking. -/
theorem exhaustion_outcome_split_witness :
    (SpecModel.run_coding_loop w3ctx none).fst.outcome = IssueOutcome.completed_with_debt
    ∧ (SpecModel.run_coding_loop w3ctx none).fst.attempts = 2
    ∧ w3zst2.files_changed = []
    ∧ (SpecModel.run_coding_loop w3zctx none).fst.outcome
        = IssueOutcome.failed_unrecoverable := by
  have h3 := exhaustion_outcome_split w3ctx 3 w3st2
  have hz := exhaustion_outcome_split w3zctx 3 w3zst2
  have e : SpecModel.run_coding_loop w3ctx none = SpecModel.runFrom w3ctx 0 3 w3st2 := rfl
  have ez : SpecModel.run_coding_loop w3zctx none = SpecModel.runFrom w3zctx 0 3 w3zst2 := rfl
  refine ⟨?_, ?_, by decide, ?_⟩
  · rw [e, h3.1]; decide
  · rw [e]; exact h3.2.1
  · rw [ez]; exact hz.2.2.2 rfl

/-- C4: for every issue, branch, budget and every behaviour of the dispatch
function (any result, error or timeout at any of the four calls of any
iteration — the whole `script`), `run_coding_loop` returns a well-formed
`IssueResult`: correct issue and branch identity, a terminal outcome
(`completed` or `failed_unrecoverable`), and an attempt count within the
budget.  The embedding of `run_coding_loop` is a total function of the
script precisely because every dispatch call site in the source is wrapped in
an exception handler, so no exception propagates to the caller. -/
theorem run_coding_loop_total_wellformed (ctx : LoopCtx) (existing : Option IterationState) :
    (run_coding_loop ctx existing).fst.issue_name = ctx.issue_name
    ∧ (run_coding_loop ctx existing).fst.branch_name = ctx.branch_name
    ∧ ((run_coding_loop ctx existing).fst.outcome = IssueOutcome.completed
       ∨ (run_coding_loop ctx existing).fst.outcome = IssueOutcome.failed_unrecoverable)
    ∧ (run_coding_loop ctx existing).fst.attempts ≤ ctx.max_iterations := by
  cases existing with
  | none => exact runFrom_wf ctx ctx.max_iterations 1 _ (by omega)
  | some s => exact runFrom_wf ctx _ (s.iteration + 1) _ (by omega)

/-- C5: in the Verify stage, a failed QA call is replaced by the conservative
default `passed = false` with an explanatory summary and a failed review call
by `approved = true, blocking = false` with an explanatory summary, while a
successful sibling result is kept verbatim; with the coder successful the
loop always proceeds to Synthesize — whatever the QA/review behaviours, this
iteration's checkpoint (written after synthesis) is produced. -/
theorem verify_partial_failure_defaults (ctx : LoopCtx) (st : LoopState)
    (fuel iteration : Nat) (c : CoderResult)
    (hc : (ctx.script iteration).coder = Except.ok c) :
    (∀ e, effQA (Except.error e)
        = { passed := false, summary := "QA agent failed: " ++ e })
    ∧ (∀ e, effReview (Except.error e)
        = { approved := true, blocking := false, summary := "Review unavailable: " ++ e })
    ∧ (∀ q, effQA (Except.ok q) = q)
    ∧ (∀ r, effReview (Except.ok r) = r)
    ∧ (∃ rest, (runFrom ctx (fuel + 1) iteration st).snd
        = st.checkpoints ++ stepCkpt (ctx.script iteration) c iteration st :: rest) := by
  exact ⟨fun e => rfl, fun e => rfl, fun q => rfl, fun r => rfl,
    runFrom_ckpt_head ctx st fuel iteration c hc⟩

/-- Witness for C5: with QA timing out and the reviewer answering, the
recorded entry carries the QA default `passed = false` next to the reviewer's
real verdict, and the iteration still reaches Synthesize (its checkpoint is
written). -/
theorem verify_partial_failure_defaults_witness :
    (w5ctx.script 1).qa = Except.error "QA timed out"
    ∧ (stepEntry w5beh 1).qa_passed = false
    ∧ (stepEntry w5beh 1).review_approved = false
    ∧ (stepEntry w5beh 1).review_blocking = false
    ∧ ∃ rest, (run_coding_loop w5ctx none).snd
        = stepCkpt w5beh w5coder 1 emptyLoopState :: rest := by
  have h := (verify_partial_failure_defaults w5ctx emptyLoopState 0 1 w5coder rfl).2.2.2.2
  have e : run_coding_loop w5ctx none = runFrom w5ctx (0 + 1) 1 emptyLoopState := rfl
  refine ⟨rfl, by decide, by decide, by decide, ?_⟩
  rw [e]
  simpa [emptyLoopState] using h

/-- C6: whenever the synthesizer call errors or times out (with the coder
successful), the loop does not fail the issue: the effective decision is the
deterministic fallback — approve if QA passed and the review is approved and
non-blocking (terminal `completed`), block if the review is marked blocking
(terminal `failed_unrecoverable`), otherwise fix (the loop continues with the
accumulated state). -/
theorem synthesizer_fallback_decision (ctx : LoopCtx) (st : LoopState)
    (fuel iteration : Nat) (c : CoderResult) (e : String)
    (hc : (ctx.script iteration).coder = Except.ok c)
    (hs : (ctx.script iteration).synth = Except.error e) :
    stepSynth (ctx.script iteration)
      = synthFallback (effQA (ctx.script iteration).qa) (effReview (ctx.script iteration).review)
    ∧ (∀ qa rv, (synthFallback qa rv).action
        = if qa.passed && rv.approved && !rv.blocking then "approve"
          else if rv.blocking then "block" else "fix")
    ∧ ((effQA (ctx.script iteration).qa).passed = true →
        (effReview (ctx.script iteration).review).approved = true →
        (effReview (ctx.script iteration).review).blocking = false →
        (runFrom ctx (fuel + 1) iteration st).fst.outcome = IssueOutcome.completed
        ∧ (runFrom ctx (fuel + 1) iteration st).fst.attempts = iteration)
    ∧ ((effReview (ctx.script iteration).review).blocking = true →
        (runFrom ctx (fuel + 1) iteration st).fst.outcome = IssueOutcome.failed_unrecoverable
        ∧ (runFrom ctx (fuel + 1) iteration st).fst.attempts = iteration)
    ∧ (((effQA (ctx.script iteration).qa).passed
          && (effReview (ctx.script iteration).review).approved
          && !(effReview (ctx.script iteration).review).blocking) = false →
        (effReview (ctx.script iteration).review).blocking = false →
        runFrom ctx (fuel + 1) iteration st
          = runFrom ctx fuel (iteration + 1)
              (stepContinue (ctx.script iteration) c iteration st)) := by
  have hss : stepSynth (ctx.script iteration)
      = synthFallback (effQA (ctx.script iteration).qa)
          (effReview (ctx.script iteration).review) := by
    simp [stepSynth, effSynth, hs]
  refine ⟨hss, ?_, ?_, ?_, ?_⟩
  · intro qa rv
    unfold synthFallback
    split_ifs <;> rfl
  · intro hqa hra hrb
    have hact : (stepSynth (ctx.script iteration)).action = "approve" := by
      rw [hss]
      unfold synthFallback
      rw [if_pos (by simp [hqa, hra, hrb])]
    simp only [runFrom, hc]
    rw [if_pos hact]
    exact ⟨rfl, rfl⟩
  · intro hrb
    have hact : (stepSynth (ctx.script iteration)).action = "block" := by
      rw [hss]
      unfold synthFallback
      rw [if_neg (by simp [hrb]), if_pos hrb]
    have hna : ¬((stepSynth (ctx.script iteration)).action = "approve") := by
      rw [hact]; decide
    simp only [runFrom, hc]
    rw [if_neg hna, if_pos hact]
    exact ⟨rfl, rfl⟩
  · intro hfb hrb
    have hact : (stepSynth (ctx.script iteration)).action = "fix" := by
      rw [hss]
      unfold synthFallback
      rw [if_neg (by simp [hfb]), if_neg (by simp [hrb])]
    have hna : ¬((stepSynth (ctx.script iteration)).action = "approve") := by
      rw [hact]; decide
    have hnb : ¬((stepSynth (ctx.script iteration)).action = "block") := by
      rw [hact]; decide
    have hstk : (stepSynth (ctx.script iteration)).stuck = false := by
      rw [hss]
      unfold synthFallback
      split_ifs <;> rfl
    simp only [runFrom, hc]
    rw [if_neg hna, if_neg hnb,
      if_neg (by rw [hstk]; decide : ¬((stepSynth (ctx.script iteration)).stuck = true))]

/-- Witness for C6: with the synthesizer down, QA passed and an approving
non-blocking review, the fallback auto-approves and the run completes in one
attempt. -/
theorem synthesizer_fallback_decision_witness :
    (w6ctx.script 1).synth = Except.error "synthesizer down"
    ∧ (run_coding_loop w6ctx none).fst.outcome = IssueOutcome.completed
    ∧ (run_coding_loop w6ctx none).fst.attempts = 1 := by
  have h := (synthesizer_fallback_decision w6ctx emptyLoopState 0 1
      { files_changed := ["feature.py"], summary := "implemented" } "synthesizer down"
      rfl rfl).2.2.1 rfl rfl rfl
  have e : run_coding_loop w6ctx none = runFrom w6ctx (0 + 1) 1 emptyLoopState := rfl
  exact ⟨rfl, by rw [e]; exact h.1, by rw [e]; exact h.2⟩

/-- Counterexample to C7 as stated: a review with `blocking = true` on
iteration 1 while the (successful) synthesizer decides `fix` — the loop does
not terminate at that iteration: it runs a second iteration (attempts = 2)
and no `iteration_history` entry ever has action `block`, although both
entries record a blocking review. -/
theorem blocking_review_not_immediately_terminal_cex :
    (cexctx.script 1).review
      = Except.ok { approved := false, blocking := true, summary := "security issue" }
    ∧ (run_coding_loop cexctx none).fst.attempts = 2
    ∧ (run_coding_loop cexctx none).fst.iteration_history.map HistEntry.review_blocking
        = [true, true]
    ∧ (run_coding_loop cexctx none).fst.iteration_history.map HistEntry.action
        = ["fix", "fix"] := by
  exact ⟨rfl, by decide, by decide, by decide⟩

/-- C7 (amended): a synthesis decision of `block` on any iteration — rather
than a blocking review as such: the review's blocking flag reaches the
outcome only through the synthesizer or its fallback — causes the loop to
terminate immediately with `failed_unrecoverable`, the last
`iteration_history` entry's action equal to `block`, and no further
iterations attempted. -/
theorem block_decision_terminal (ctx : LoopCtx) (st : LoopState) (fuel iteration : Nat)
    (c : CoderResult)
    (hc : (ctx.script iteration).coder = Except.ok c)
    (hb : (stepSynth (ctx.script iteration)).action = "block") :
    (runFrom ctx (fuel + 1) iteration st).fst.outcome = IssueOutcome.failed_unrecoverable
    ∧ (runFrom ctx (fuel + 1) iteration st).fst.attempts = iteration
    ∧ (runFrom ctx (fuel + 1) iteration st).fst.iteration_history
        = st.iteration_history ++ [stepEntry (ctx.script iteration) iteration]
    ∧ (stepEntry (ctx.script iteration) iteration).action = "block" := by
  have hna : ¬((stepSynth (ctx.script iteration)).action = "approve") := by
    rw [hb]; decide
  simp only [runFrom, hc]
  rw [if_neg hna, if_pos hb]
  exact ⟨rfl, rfl, rfl, hb⟩

/-- Witness for the amended C7: a synthesizer `block` decision on iteration 1
terminates the run immediately as `failed_unrecoverable` with the single
history entry carrying action `block`. -/
theorem block_decision_terminal_witness :
    (stepSynth (w7ctx.script 1)).action = "block"
    ∧ (run_coding_loop w7ctx none).fst.outcome = IssueOutcome.failed_unrecoverable
    ∧ (run_coding_loop w7ctx none).fst.attempts = 1
    ∧ (run_coding_loop w7ctx none).fst.iteration_history.map HistEntry.action
        = ["block"] := by
  have h := block_decision_terminal w7ctx emptyLoopState 2 1
      { files_changed := ["a.py"], summary := "attempt" } rfl rfl
  have e : run_coding_loop w7ctx none = runFrom w7ctx (2 + 1) 1 emptyLoopState := rfl
  refine ⟨rfl, by rw [e]; exact h.1, by rw [e]; exact h.2.1, ?_⟩
  rw [e, h.2.2.1]
  decide

/-- C8: any error or timeout of the coder dispatch call terminates the whole
issue immediately with `failed_unrecoverable`, attempts equal to that
iteration number, an error message referencing the coder, and the files
changed so far carried in the result (and no further checkpoint written). -/
theorem coder_failure_fatal (ctx : LoopCtx) (st : LoopState) (fuel iteration : Nat)
    (e : String)
    (hc : (ctx.script iteration).coder = Except.error e) :
    (runFrom ctx (fuel + 1) iteration st).fst
      = { issue_name := ctx.issue_name
          outcome := IssueOutcome.failed_unrecoverable
          error_message := s!"Coder agent failed on iteration {iteration}: {e}"
          attempts := iteration
          files_changed := st.files_changed
          branch_name := ctx.branch_name
          iteration_history := st.iteration_history }
    ∧ (runFrom ctx (fuel + 1) iteration st).snd = st.checkpoints := by
  constructor <;> simp [runFrom, hc]

/-- Witness for C8: the coder raising on iteration 1 fails the issue at once
with attempts 1 and a coder-referencing message. -/
theorem coder_failure_fatal_witness :
    (w8ctx.script 1).coder = Except.error "Model API timeout"
    ∧ (run_coding_loop w8ctx none).fst.outcome = IssueOutcome.failed_unrecoverable
    ∧ (run_coding_loop w8ctx none).fst.attempts = 1
    ∧ (run_coding_loop w8ctx none).fst.error_message
        = "Coder agent failed on iteration 1: Model API timeout" := by
  have h := (coder_failure_fatal w8ctx emptyLoopState 2 1 "Model API timeout" rfl).1
  have e : run_coding_loop w8ctx none = runFrom w8ctx (2 + 1) 1 emptyLoopState := rfl
  refine ⟨rfl, ?_, ?_, ?_⟩
  · rw [e, h]
  · rw [e, h]
  · rw [e, h]; decide

/-- C9: after every Synthesize stage and before acting on the decision, the
checkpoint `{iteration, feedback, files_changed, iteration_history}` for this
iteration is persisted (it appears in the saved trace even when the decision
terminates the run); a loop restarted against a checkpoint written after
iteration N starts at iteration N + 1 — default 1 with no checkpoint — and
its first new checkpoint extends the checkpointed `files_changed` and
`iteration_history`. -/
theorem checkpoint_after_synthesis_and_resume (ctx : LoopCtx) (cst : IterationState)
    (cr : CoderResult)
    (hlt : cst.iteration < ctx.max_iterations)
    (hcr : (ctx.script (cst.iteration + 1)).coder = Except.ok cr) :
    (∀ st fuel iteration c, (ctx.script iteration).coder = Except.ok c →
      ∃ rest, (runFrom ctx (fuel + 1) iteration st).snd
        = st.checkpoints ++ stepCkpt (ctx.script iteration) c iteration st :: rest)
    ∧ (∃ rest, (run_coding_loop ctx (some cst)).snd
        = stepCkpt (ctx.script (cst.iteration + 1)) cr (cst.iteration + 1)
            { feedback := cst.feedback
              files_changed := cst.files_changed
              iteration_history := cst.iteration_history
              checkpoints := [] } :: rest)
    ∧ (∀ c1, (ctx.script 1).coder = Except.ok c1 → 1 ≤ ctx.max_iterations →
        ∃ rest, (run_coding_loop ctx none).snd
          = stepCkpt (ctx.script 1) c1 1 emptyLoopState :: rest) := by
  refine ⟨fun st fuel iteration c hc => runFrom_ckpt_head ctx st fuel iteration c hc, ?_, ?_⟩
  · have hfuel : ctx.max_iterations + 1 - (cst.iteration + 1)
        = (ctx.max_iterations - cst.iteration - 1) + 1 := by omega
    have e : run_coding_loop ctx (some cst)
        = runFrom ctx (ctx.max_iterations + 1 - (cst.iteration + 1)) (cst.iteration + 1)
            { feedback := cst.feedback
              files_changed := cst.files_changed
              iteration_history := cst.iteration_history
              checkpoints := [] } := rfl
    rw [e, hfuel]
    simpa using runFrom_ckpt_head ctx
      { feedback := cst.feedback
        files_changed := cst.files_changed
        iteration_history := cst.iteration_history
        checkpoints := [] }
      (ctx.max_iterations - cst.iteration - 1) (cst.iteration + 1) cr hcr
  · intro c1 hc1 h1
    have hfuel : ctx.max_iterations = (ctx.max_iterations - 1) + 1 := by omega
    have e : run_coding_loop ctx none
        = runFrom ctx ctx.max_iterations 1 emptyLoopState := rfl
    rw [e, hfuel]
    simpa [emptyLoopState] using
      runFrom_ckpt_head ctx emptyLoopState (ctx.max_iterations - 1) 1 c1 hc1

/-- Witness for C9: a run restarted against a checkpoint written after
iteration 1 resumes at iteration 2 and its first new checkpoint is for
iteration 2, built on top of the checkpointed files and history. -/
theorem checkpoint_after_synthesis_and_resume_witness :
    w9cst.iteration < w9ctx.max_iterations
    ∧ ∃ rest, (run_coding_loop w9ctx (some w9cst)).snd
        = stepCkpt w9beh w9coder 2
            { feedback := "earlier feedback"
              files_changed := ["a.py"]
              iteration_history := w9cst.iteration_history
              checkpoints := [] } :: rest := by
  have h := (checkpoint_after_synthesis_and_resume w9ctx w9cst w9coder (by decide) rfl).2.1
  exact ⟨by decide, h⟩

/-- C10: the `files_changed` of the returned `IssueResult` is the
deduplicating union (fold of `addFiles`) of the lists reported by the coder
over the iterations that ran, starting from the resumed set; `addFiles` is
exactly union membership and preserves duplicate-freeness (reporting the same
file again adds nothing), and the set never shrinks: anything present in the
loop state stays in the final result. -/
theorem files_changed_dedup_union (ctx : LoopCtx) (existing : Option IterationState) :
    (∀ fuel iteration st, ∃ n, n ≤ fuel ∧
      (runFrom ctx fuel iteration st).fst.files_changed
        = dedupUnion st.files_changed (collectReports ctx n iteration))
    ∧ (∃ n, (run_coding_loop ctx existing).fst.files_changed
        = dedupUnion (resumeFiles existing) (collectReports ctx n (startIteration existing)))
    ∧ (∀ a acc ns, a ∈ addFiles acc ns ↔ a ∈ acc ∨ a ∈ ns)
    ∧ (∀ acc ns, acc.Nodup → (addFiles acc ns).Nodup)
    ∧ (∀ fuel iteration st x, x ∈ st.files_changed →
        x ∈ (runFrom ctx fuel iteration st).fst.files_changed)
    ∧ (∀ x, x ∈ resumeFiles existing →
        x ∈ (run_coding_loop ctx existing).fst.files_changed) := by
  refine ⟨runFrom_files_union ctx, ?_,
    fun a acc ns => mem_addFiles a ns acc,
    fun acc ns h => nodup_addFiles ns acc h,
    runFrom_files_mono ctx, ?_⟩
  · cases existing with
    | none =>
        obtain ⟨n, _, hf⟩ := runFrom_files_union ctx ctx.max_iterations 1 emptyLoopState
        refine ⟨n, ?_⟩
        have e : run_coding_loop ctx none
            = runFrom ctx ctx.max_iterations 1 emptyLoopState := rfl
        rw [e]
        exact hf
    | some s =>
        obtain ⟨n, _, hf⟩ := runFrom_files_union ctx (ctx.max_iterations + 1 - (s.iteration + 1))
          (s.iteration + 1)
          { feedback := s.feedback
            files_changed := s.files_changed
            iteration_history := s.iteration_history
            checkpoints := [] }
        refine ⟨n, ?_⟩
        have e : run_coding_loop ctx (some s)
            = runFrom ctx (ctx.max_iterations + 1 - (s.iteration + 1)) (s.iteration + 1)
                { feedback := s.feedback
                  files_changed := s.files_changed
                  iteration_history := s.iteration_history
                  checkpoints := [] } := rfl
        rw [e]
        exact hf
  · intro x hx
    cases existing with
    | none => exact absurd hx (by simp [resumeFiles])
    | some s => exact runFrom_files_mono ctx _ _ _ x hx

/-- Witness for C10: resuming with checkpointed files `[a.py]` while the
coder reports `[b.py, c.py]` yields exactly `[a.py, b.py, c.py]`; the
checkpointed file survives (monotonicity applied through the theorem), and
re-reporting an already-present file adds it only once. -/
theorem files_changed_dedup_union_witness :
    "a.py" ∈ resumeFiles (some w10cst)
    ∧ "a.py" ∈ (run_coding_loop w10ctx (some w10cst)).fst.files_changed
    ∧ (run_coding_loop w10ctx (some w10cst)).fst.files_changed = ["a.py", "b.py", "c.py"]
    ∧ addFiles ["a.py", "b.py"] ["b.py", "c.py"] = ["a.py", "b.py", "c.py"] := by
  refine ⟨by decide,
    (files_changed_dedup_union w10ctx (some w10cst)).2.2.2.2.2 "a.py" (by decide),
    by decide, by decide⟩
